import Mathlib

/-!
Shallow embedding of the verification-suite orchestrator
(src/formal/run_verification_suite.py) and the test-configuration
generator (src/formal/generate_instruction_tests.py) of the
5iri/synapse32 repository, together with theorems settling the
frozen claims about them.

Modelling conventions:
* the file system is a map from path strings to optional file contents;
* the backend tool invocation (subprocess.run of sby) is an oracle
  returning a `ProcOutcome`: normal completion with an exit code and
  captured stdout/stderr, a timeout, or a raised exception;
* wall-clock durations (Python floats from time.time()) are modelled as
  natural numbers of whole seconds; Python float formatting such as
  "%.2f" and "%5.1f" is rendered by the decimal helpers `fmt2`/`fmtPct1`
  (flooring instead of round-to-nearest, the only deviation);
* `ThreadPoolExecutor`/`as_completed` completion order is abstracted to
  submission order; order-(in)dependence of the downstream aggregation
  is analysed explicitly on `generate_summary_report`.
-/

/-- A file system: maps a path to the file's textual content, if present. -/
def FileState := String → Option String

/-- Writing (mode "w": create or overwrite) a file. -/
def fsWrite (fs : FileState) (path content : String) : FileState :=
  fun p => if p = path then some content else fs p

/-- Deleting a file. -/
def fsDelete (fs : FileState) (path : String) : FileState :=
  fun p => if p = path then none else fs p

/-- The empty file system. -/
def emptyFS : FileState := fun _ => none

/-- `TestResult` dataclass (run_verification_suite.py lines 19-27).
Statuses are the literal strings "PASS", "FAIL", "TIMEOUT", "ERROR". -/
structure TestResult where
  test_name : String
  category : String
  status : String
  duration : Nat
  log_file : Option String := none
  error_message : Option String := none
  deriving DecidableEq, Repr

/-- Outcome of one `subprocess.run(["sby", "-f", file], ...)` call:
normal completion (exit code, captured stdout and stderr), a
`subprocess.TimeoutExpired` (subprocess.run kills the child process
before raising it), or any other raised exception (its str text).
Each constructor carries the elapsed wall time observed. -/
inductive ProcOutcome where
  | completed (returncode : Int) (stdoutText stderrText : String) (duration : Nat)
  | timedOut (duration : Nat)
  | raised (message : String) (duration : Nat)
  deriving DecidableEq, Repr

/-- Environment of one `VerificationSuiteRunner` invocation: the
configured per-test timeout, the file-system queries used by discovery
(`Path.exists`, `Path.glob("*.sby")`), the log-directory scan
(`log_dir.exists` and its recursive glob over .log files), and the backend-process
oracle keyed by artifact path. -/
structure SuiteEnv where
  timeout : Nat
  dirExists : String → Bool
  globSby : String → List String
  logDirExists : String → Bool
  logGlob : String → List String
  run : String → ProcOutcome

/-- Last component of a path (`Path.name`). -/
def pathBaseName (p : String) : String := (p.splitOn "/").getLastD p

/-- `Path.stem`: the final path component without its last suffix. -/
def pathStem (p : String) : String :=
  let parts := (pathBaseName p).splitOn "."
  if parts.length ≤ 1 then pathBaseName p
  else String.intercalate "." parts.dropLast

/-- `Path.parent`: the path without its final component. -/
def pathParent (p : String) : String :=
  String.intercalate "/" (p.splitOn "/").dropLast

/-- `VerificationSuiteRunner.find_test_files` (lines 38-42): all .sby
files in a directory, or `[]` when the directory does not exist. -/
def find_test_files (env : SuiteEnv) (test_dir : String) : List String :=
  if env.dirExists test_dir then env.globSby test_dir else []

/-- `VerificationSuiteRunner.run_single_test` (lines 44-107): run one
SBY test and classify the outcome. Exit code 0 is PASS; a non-zero exit
code is FAIL with `process.stderr or process.stdout` as the message; a
timeout is TIMEOUT with a fixed message; any raised exception is ERROR
with the exception text. -/
def run_single_test (env : SuiteEnv) (test_file category : String) : TestResult :=
  let test_name := pathStem test_file
  match env.run test_file with
  | .completed rc stdoutText stderrText dur =>
      let status := if rc = 0 then "PASS" else "FAIL"
      let error_message : Option String :=
        if rc = 0 then none else some (if stderrText = "" then stdoutText else stderrText)
      let log_dir := pathParent test_file ++ "/" ++ test_name
      let log_file : Option String :=
        if env.logDirExists log_dir then (env.logGlob log_dir).head? else none
      { test_name, category, status, duration := dur, log_file, error_message }
  | .timedOut dur =>
      { test_name, category, status := "TIMEOUT", duration := dur,
        error_message := some ("Test timed out after " ++ toString env.timeout ++ " seconds") }
  | .raised msg dur =>
      { test_name, category, status := "ERROR", duration := dur,
        error_message := some msg }

/-- `VerificationSuiteRunner.run_tests_parallel` (lines 109-140): one
`run_single_test` per submitted (file, category) pair. `as_completed`
yields futures in a nondeterministic completion order, abstracted here
to submission order; `run_single_test` is total, so `future.result()`
never raises and every submitted job contributes exactly one result. -/
def run_tests_parallel (env : SuiteEnv) (test_files : List (String × String)) :
    List TestResult :=
  test_files.map (fun fc => run_single_test env fc.1 fc.2)

/-- The `test_categories` table of `run_verification_suite` (251-255). -/
def allCategories : List (String × String) :=
  [("instructions", "instructions"), ("system", "system_checks"),
   ("integration", "integration")]

/-- The category filter of `run_verification_suite` (lines 257-259). -/
def selectedCategories (categories : Option (List String)) : List (String × String) :=
  match categories with
  | some cats => allCategories.filter (fun kv => cats.contains kv.1)
  | none => allCategories

/-- Test discovery of `run_verification_suite` (lines 261-266): for each
selected category, the .sby files of its directory paired with the
category name. -/
def discoveredJobs (env : SuiteEnv) (formal_dir : String)
    (categories : Option (List String)) : List (String × String) :=
  (selectedCategories categories).flatMap
    (fun kv => (find_test_files env (formal_dir ++ "/" ++ kv.2)).map (fun f => (f, kv.1)))

/-- Number of results with the given status (the `status_counts`
counters of `generate_summary_report`, lines 149-153). -/
def countStatus (s : String) (results : List TestResult) : Nat :=
  (results.filter (fun r => r.status == s)).length

/-- `VerificationSuiteRunner.run_verification_suite` (lines 239-296):
discover jobs; with zero jobs print an error and return False;
otherwise run all jobs and return whether every result is PASS
(`passed_tests == len(self.results)`). -/
def run_verification_suite (env : SuiteEnv) (formal_dir : String)
    (categories : Option (List String)) : Bool :=
  let all_test_files := discoveredJobs env formal_dir categories
  if all_test_files.isEmpty then false
  else
    let results := run_tests_parallel env all_test_files
    countStatus "PASS" results == results.length

/-- The verification-run tail of `main` (lines 340-347): exit code 0
when `run_verification_suite` returns True, 1 otherwise. (The earlier
regenerate-on-demand and generate-only prologue of `main` is outside
this model.) -/
def mainExitCode (env : SuiteEnv) (formal_dir : String)
    (categories : Option (List String)) : Nat :=
  if run_verification_suite env formal_dir categories then 0 else 1

/-- Cumulative per-job duration (`total_duration`, line 161). -/
def totalDuration (results : List TestResult) : Nat :=
  (results.map (fun r => r.duration)).sum

/-- Number of results in a category (`sum(stats.values())`, line 185;
every status produced by `run_single_test` is one of the four counted
keys, so this is the number of results with that category). -/
def countCat (c : String) (results : List TestResult) : Nat :=
  (results.filter (fun r => r.category == c)).length

/-- Per-category per-status counter (`category_stats`, lines 155-158). -/
def countCatStatus (c s : String) (results : List TestResult) : Nat :=
  (results.filter (fun r => r.category == c && r.status == s)).length

/-- Categories in first-encounter order: the insertion order of the
`category_stats` dict keys, which is the iteration order of
`category_stats.items()` (line 184). -/
def categoriesInOrder (results : List TestResult) : List String :=
  results.foldl (fun acc r => if acc.contains r.category then acc else acc ++ [r.category]) []

/-- The status-symbol table (lines 128-133 and 178). -/
def statusSymbol (s : String) : String :=
  if s == "PASS" then "[PASS]"
  else if s == "FAIL" then "[FAIL]"
  else if s == "TIMEOUT" then "[TIMEOUT]"
  else if s == "ERROR" then "[ERROR]"
  else "[UNKNOWN]"

/-- Left-aligned padding to a minimum width (Python format `{s:8}`). -/
def padR (s : String) (w : Nat) : String :=
  s ++ String.mk (List.replicate (w - s.length) ' ')

/-- Right-aligned padding to a minimum width (Python format `{n:3}`). -/
def padL (s : String) (w : Nat) : String :=
  String.mk (List.replicate (w - s.length) ' ') ++ s

/-- Rendering of a whole-second duration with Python's "%.2f". -/
def fmt2 (n : Nat) : String := toString n ++ ".00"

/-- Rendering of the percentage `num / den * 100` with one decimal
digit (Python "%.1f"; floored rather than rounded to nearest). -/
def fmtPct1 (num den : Nat) : String :=
  let tenths := num * 1000 / den
  toString (tenths / 10) ++ "." ++ toString (tenths % 10)

/-- Diagnostic truncation of the summary (line 198): messages longer
than 100 characters are cut to their first 100 characters plus "...". -/
def truncateErr (e : String) : String :=
  if e.length > 100 then e.take 100 ++ "..." else e

/-- One line of the "Overall Results:" block (lines 176-179). -/
def overallLine (results : List TestResult) (s : String) : String :=
  "  " ++ statusSymbol s ++ " " ++ padR s 8 ++ ": "
    ++ padL (toString (countStatus s results)) 3 ++ " tests ("
    ++ padL (fmtPct1 (countStatus s results) results.length) 5 ++ "%)"

/-- One line of the "Results by Category:" block (lines 184-187). -/
def categoryLine (results : List TestResult) (c : String) : String :=
  "  " ++ padR c 15 ++ ": " ++ padL (toString (countCatStatus c "PASS" results)) 2
    ++ "/" ++ padL (toString (countCat c results)) 2 ++ " passed ("
    ++ padL (fmtPct1 (countCatStatus c "PASS" results) (countCat c results)) 5 ++ "%)"

/-- The one or two summary lines of one non-passing test (194-199).
The `if result.error_message:` guard at line 196 is a Python truthiness
test: both None and the empty string suppress the Error line. -/
def failedBlock (r : TestResult) : List String :=
  ("  [" ++ padR r.category 12 ++ "] " ++ padR r.test_name 20 ++ " - " ++ r.status) ::
    (match r.error_message with
     | some m => if m = "" then [] else ["    Error: " ++ truncateErr m]
     | none => [])

/-- The "Failed Tests:" section (lines 191-200), present only when a
non-PASS result exists; one block per non-passing result, in result
order, followed by a blank line. -/
def failedLines (results : List TestResult) : List String :=
  let failed := results.filter (fun r => r.status != "PASS")
  if failed.isEmpty then []
  else "Failed Tests:" :: (failed.flatMap failedBlock ++ [""])

/-- Python `min(results, key=duration)`: first strict minimum. -/
def fasterOf (a b : TestResult) : TestResult :=
  if b.duration < a.duration then b else a

/-- Python `max(results, key=duration)`: first strict maximum. -/
def slowerOf (a b : TestResult) : TestResult :=
  if b.duration > a.duration then b else a

/-- The "Performance Statistics:" block (lines 202-210); only reached
on a non-empty result list. -/
def perfLines (results : List TestResult) : List String :=
  match results with
  | [] => []
  | r :: rs =>
    let fastest := rs.foldl fasterOf r
    let slowest := rs.foldl slowerOf r
    let avg := totalDuration (r :: rs) / (r :: rs).length
    ["Performance Statistics:",
     "  Fastest: " ++ padR fastest.test_name 20 ++ " (" ++ fmt2 fastest.duration ++ "s)",
     "  Slowest: " ++ padR slowest.test_name 20 ++ " (" ++ fmt2 slowest.duration ++ "s)",
     "  Average: " ++ fmt2 avg ++ "s per test"]

/-- The `report` line list of `generate_summary_report` (lines 142-212),
with the measured wall time passed in explicitly. -/
def summaryLines (results : List TestResult) (wall_time : Nat) : List String :=
  if results.isEmpty then ["No test results available."]
  else
    ["RISC-V CPU Formal Verification Summary Report",
     String.mk (List.replicate 60 '='),
     "Total Tests: " ++ toString results.length,
     "Wall Time: " ++ fmt2 wall_time ++ " seconds",
     "CPU Time: " ++ fmt2 (totalDuration results) ++ " seconds",
     (if 0 < wall_time then "Speedup: " ++ fmt2 (totalDuration results / wall_time) ++ "x"
      else "Speedup: N/A"),
     "",
     "Overall Results:"]
    ++ (["PASS", "FAIL", "TIMEOUT", "ERROR"].map (overallLine results))
    ++ ["", "Results by Category:"]
    ++ ((categoriesInOrder results).map (categoryLine results))
    ++ [""]
    ++ failedLines results
    ++ perfLines results

/-- `VerificationSuiteRunner.generate_summary_report`: the joined
summary text (`"\n".join(report)`, line 212). -/
def generate_summary_report (results : List TestResult) (wall_time : Nat) : String :=
  String.intercalate "\n" (summaryLines results wall_time)

/-- The `summary` block of the persisted JSON report (lines 217-222). -/
structure ReportSummary where
  total_tests : Nat
  wall_time : Nat
  cpu_time : Nat
  timestamp : String
  deriving DecidableEq, Repr

/-- One element of the `results` array of the persisted JSON report
(lines 224-231): every `TestResult` field, verbatim. -/
structure ReportedResult where
  test_name : String
  category : String
  status : String
  duration : Nat
  log_file : Option String
  error_message : Option String
  deriving DecidableEq, Repr

/-- The persisted structured report document (`report_data`). -/
structure ReportDoc where
  summary : ReportSummary
  results : List ReportedResult
  deriving DecidableEq, Repr

/-- `VerificationSuiteRunner.save_detailed_report` (lines 214-237): the
structured document written to verification_report.json, with the wall
time and timestamp passed in explicitly. -/
def save_detailed_report (results : List TestResult) (wall_time : Nat)
    (timestamp : String) : ReportDoc :=
  { summary :=
      { total_tests := results.length, wall_time,
        cpu_time := totalDuration results, timestamp },
    results := results.map (fun r =>
      { test_name := r.test_name, category := r.category, status := r.status,
        duration := r.duration, log_file := r.log_file,
        error_message := r.error_message }) }

/-- `RV32I_INSTRUCTIONS` (generate_instruction_tests.py lines 12-63). -/
def RV32I_INSTRUCTIONS : List (String × String) :=
  [("add", "R-type arithmetic"), ("sub", "R-type arithmetic"),
   ("addi", "I-type arithmetic"), ("lui", "U-type load upper immediate"),
   ("auipc", "U-type add upper immediate to PC"),
   ("and", "R-type logical"), ("or", "R-type logical"), ("xor", "R-type logical"),
   ("andi", "I-type logical"), ("ori", "I-type logical"), ("xori", "I-type logical"),
   ("sll", "R-type shift left logical"), ("srl", "R-type shift right logical"),
   ("sra", "R-type shift right arithmetic"),
   ("slli", "I-type shift left logical immediate"),
   ("srli", "I-type shift right logical immediate"),
   ("srai", "I-type shift right arithmetic immediate"),
   ("slt", "R-type set less than"), ("sltu", "R-type set less than unsigned"),
   ("slti", "I-type set less than immediate"),
   ("sltiu", "I-type set less than immediate unsigned"),
   ("lb", "I-type load byte"), ("lh", "I-type load halfword"),
   ("lw", "I-type load word"), ("lbu", "I-type load byte unsigned"),
   ("lhu", "I-type load halfword unsigned"),
   ("sb", "S-type store byte"), ("sh", "S-type store halfword"),
   ("sw", "S-type store word"),
   ("beq", "B-type branch equal"), ("bne", "B-type branch not equal"),
   ("blt", "B-type branch less than"), ("bge", "B-type branch greater equal"),
   ("bltu", "B-type branch less than unsigned"),
   ("bgeu", "B-type branch greater equal unsigned"),
   ("jal", "J-type jump and link"), ("jalr", "I-type jump and link register")]

/-- `SYSTEM_CHECKS` (lines 66-78). -/
def SYSTEM_CHECKS : List (String × String) :=
  [("reg", "Register file verification"),
   ("pc_fwd", "PC forward progression verification"),
   ("pc_bwd", "PC backward verification"),
   ("dmem", "Data memory consistency"),
   ("imem", "Instruction memory consistency"),
   ("insn", "General instruction verification"),
   ("ill", "Illegal instruction handling"),
   ("hang", "Hang detection"),
   ("causal", "Causality verification"),
   ("unique", "Unique instruction verification"),
   ("liveness", "Liveness verification")]

/-- `INTEGRATION_CHECKS` (lines 81-85). -/
def INTEGRATION_CHECKS : List (String × String) :=
  [("rv32i", "Complete RV32I ISA verification"),
   ("cover", "Coverage analysis"),
   ("fault", "Fault injection testing")]

/-- The absolute repository prefix hard-coded in every template. -/
def synRoot : String := "/Users/lazybanana/github/synapse32/"

/-- The eight top-level rtl design files, template order. -/
def rtlTopFiles : List String :=
  [synRoot ++ "rtl/top.v", synRoot ++ "rtl/riscv_cpu.v", synRoot ++ "rtl/data_mem.v",
   synRoot ++ "rtl/execution_unit.v", synRoot ++ "rtl/instr_mem.v",
   synRoot ++ "rtl/memory_unit.v", synRoot ++ "rtl/seven_seg.v",
   synRoot ++ "rtl/writeback.v"]

/-- The nine core-module files, template order. -/
def coreModuleFiles : List String :=
  [synRoot ++ "rtl/core_modules/alu.v", synRoot ++ "rtl/core_modules/csr_exec.v",
   synRoot ++ "rtl/core_modules/csr_file.v", synRoot ++ "rtl/core_modules/decoder.v",
   synRoot ++ "rtl/core_modules/interrupt_controller.v",
   synRoot ++ "rtl/core_modules/pc.v", synRoot ++ "rtl/core_modules/registerfile.v",
   synRoot ++ "rtl/core_modules/timer.v", synRoot ++ "rtl/core_modules/uart.v"]

/-- The eight pipeline-stage files, template order. -/
def pipelineFiles : List String :=
  [synRoot ++ "rtl/pipeline_stages/EX_MEM.v",
   synRoot ++ "rtl/pipeline_stages/forwarding_unit.v",
   synRoot ++ "rtl/pipeline_stages/ID_EX.v",
   synRoot ++ "rtl/pipeline_stages/IF_ID.v",
   synRoot ++ "rtl/pipeline_stages/load_use_detector.v",
   synRoot ++ "rtl/pipeline_stages/MEM_WB.v",
   synRoot ++ "rtl/pipeline_stages/store_load_detector.v",
   synRoot ++ "rtl/pipeline_stages/store_load_forward.v"]

/-- The two include files, template order. -/
def includeFiles : List String :=
  [synRoot ++ "rtl/include/instr_defines.vh", synRoot ++ "rtl/include/memory_map.vh"]

/-- All 27 design files, the order of every `[files]` section. -/
def designFiles : List String :=
  rtlTopFiles ++ coreModuleFiles ++ pipelineFiles ++ includeFiles

/-- riscv-formal support files referenced by the templates. -/
def macrosFile : String := synRoot ++ "riscv-formal/checks/rvfi_macros.vh"

/-- Per-instruction riscv-formal model file. -/
def insnFile (instruction : String) : String :=
  synRoot ++ "riscv-formal/insns/insn_" ++ instruction ++ ".v"

/-- The shared riscv-formal instruction checker. -/
def insnCheckFile : String := synRoot ++ "riscv-formal/checks/rvfi_insn_check.sv"

/-- Per-system-check riscv-formal checker file. -/
def sysCheckFile (check_name : String) : String :=
  synRoot ++ "riscv-formal/checks/rvfi_" ++ check_name ++ "_check.sv"

/-- Per-integration-check riscv-formal ISA file. -/
def isaFile (check_name : String) : String :=
  synRoot ++ "riscv-formal/insns/isa_" ++ check_name ++ ".v"

/-- The define flags of every instruction-config read_verilog line. -/
def insnDefineFlags (instruction : String) : String :=
  "-DFORMAL -DRISCV_FORMAL_NRET=1 -DRISCV_FORMAL_ILEN=32 -DRISCV_FORMAL_XLEN=32 -DRISCV_FORMAL_INSN_MODEL=rvfi_insn_"
    ++ instruction ++ " -DRISCV_FORMAL_CHANNEL_IDX=0"

/-- The define flags of the system/integration read_verilog lines. -/
def sysDefineFlags : String :=
  "-DFORMAL -DRISCV_FORMAL_NRET=1 -DRISCV_FORMAL_ILEN=32 -DRISCV_FORMAL_XLEN=32 -DRISCV_FORMAL_CHANNEL_IDX=0"

/-- A read_verilog line of the instruction template. -/
def rvInsnLine (instruction path : String) : String :=
  "read_verilog " ++ insnDefineFlags instruction ++ " " ++ path

/-- A read_verilog -sv -formal line of the instruction template. -/
def rvInsnSvLine (instruction path : String) : String :=
  "read_verilog -sv -formal " ++ insnDefineFlags instruction ++ " " ++ path

/-- A read_verilog line of the system/integration templates. -/
def rvSysLine (path : String) : String :=
  "read_verilog " ++ sysDefineFlags ++ " " ++ path

/-- A read_verilog -sv -formal line of the system/integration templates. -/
def rvSysSvLine (path : String) : String :=
  "read_verilog -sv -formal " ++ sysDefineFlags ++ " " ++ path

/-- The IF_ID.v line of the instruction template (source line 125):
uniquely, it omits -DRISCV_FORMAL_NRET=1. -/
def rvInsnIfIdLine (instruction : String) : String :=
  "read_verilog -DFORMAL -DRISCV_FORMAL_ILEN=32 -DRISCV_FORMAL_XLEN=32 -DRISCV_FORMAL_INSN_MODEL=rvfi_insn_"
    ++ instruction ++ " -DRISCV_FORMAL_CHANNEL_IDX=0 "
    ++ synRoot ++ "rtl/pipeline_stages/IF_ID.v"

/-- The fixed synthesis-pass tail of every `[script]` section. -/
def synthesisPassLines : List String :=
  ["# Synthesis passes", "hierarchy -top top", "proc", "opt", "memory -nomap",
   "flatten", "setundef -undriven -anyseq", "check", "stat"]

/-- The content lines of `create_instruction_config` (lines 90-181) for
one instruction, in file order; the configured proof depth is 20. -/
def instructionConfigLines (instruction : String) : List String :=
  ["[options]", "mode prove", "expect pass", "depth 20", "wait on", "",
   "[engines]", "smtbmc boolector", "",
   "[script]", "# --- Design files with instruction-specific defines ---"]
  ++ rtlTopFiles.map (rvInsnLine instruction)
  ++ ["", "# Core modules"]
  ++ coreModuleFiles.map (rvInsnLine instruction)
  ++ ["", "# Pipeline stages",
      rvInsnLine instruction (synRoot ++ "rtl/pipeline_stages/EX_MEM.v"),
      rvInsnLine instruction (synRoot ++ "rtl/pipeline_stages/forwarding_unit.v"),
      rvInsnLine instruction (synRoot ++ "rtl/pipeline_stages/ID_EX.v"),
      rvInsnIfIdLine instruction,
      rvInsnLine instruction (synRoot ++ "rtl/pipeline_stages/load_use_detector.v"),
      rvInsnLine instruction (synRoot ++ "rtl/pipeline_stages/MEM_WB.v"),
      rvInsnLine instruction (synRoot ++ "rtl/pipeline_stages/store_load_detector.v"),
      rvInsnLine instruction (synRoot ++ "rtl/pipeline_stages/store_load_forward.v"),
      "", "# Include files"]
  ++ includeFiles.map (rvInsnLine instruction)
  ++ ["", "# riscv-formal checks for " ++ instruction.toUpper ++ " instruction",
      rvInsnSvLine instruction macrosFile,
      rvInsnSvLine instruction (insnFile instruction),
      rvInsnSvLine instruction insnCheckFile,
      ""]
  ++ synthesisPassLines
  ++ ["", "[files]"]
  ++ designFiles
  ++ [macrosFile, insnFile instruction, insnCheckFile, ""]

/-- The artifact text of `create_instruction_config`. -/
def create_instruction_config_content (instruction : String) : String :=
  String.intercalate "\n" (instructionConfigLines instruction)

/-- The content lines of `create_system_config` (lines 193-282) for one
system check, in file order; the configured proof depth is 30. -/
def systemConfigLines (check_name : String) : List String :=
  ["[options]", "mode prove", "expect pass", "depth 30", "wait on", "",
   "[engines]", "smtbmc boolector", "",
   "[script]", "# --- Design files for " ++ check_name.toUpper ++ " verification ---"]
  ++ rtlTopFiles.map rvSysLine
  ++ ["", "# Core modules"]
  ++ coreModuleFiles.map rvSysLine
  ++ ["", "# Pipeline stages"]
  ++ pipelineFiles.map rvSysLine
  ++ ["", "# Include files"]
  ++ includeFiles.map rvSysLine
  ++ ["", "# riscv-formal checks for " ++ check_name.toUpper ++ " verification",
      rvSysSvLine macrosFile,
      rvSysSvLine (sysCheckFile check_name),
      ""]
  ++ synthesisPassLines
  ++ ["", "[files]"]
  ++ designFiles
  ++ [macrosFile, sysCheckFile check_name, ""]

/-- The artifact text of `create_system_config`. -/
def create_system_config_content (check_name : String) : String :=
  String.intercalate "\n" (systemConfigLines check_name)

/-- The content lines of `create_integration_config` (lines 294-383) for
one integration check, in file order; the configured proof depth is 50. -/
def integrationConfigLines (check_name : String) : List String :=
  ["[options]", "mode prove", "expect pass", "depth 50", "wait on", "",
   "[engines]", "smtbmc boolector", "",
   "[script]", "# --- Complete ISA verification for " ++ check_name.toUpper ++ " ---"]
  ++ rtlTopFiles.map rvSysLine
  ++ ["", "# Core modules"]
  ++ coreModuleFiles.map rvSysLine
  ++ ["", "# Pipeline stages"]
  ++ pipelineFiles.map rvSysLine
  ++ ["", "# Include files"]
  ++ includeFiles.map rvSysLine
  ++ ["", "# Complete ISA verification",
      rvSysSvLine macrosFile,
      rvSysSvLine (isaFile check_name),
      ""]
  ++ synthesisPassLines
  ++ ["", "[files]"]
  ++ designFiles
  ++ [macrosFile, isaFile check_name, ""]

/-- The artifact text of `create_integration_config`. -/
def create_integration_config_content (check_name : String) : String :=
  String.intercalate "\n" (integrationConfigLines check_name)

/-- Whether a config line is the "depth " option line. -/
def isDepthLine (l : String) : Bool :=
  l.data.take 6 == "depth ".data

/-- The decimal value of a nonempty digit string. -/
def digitsToNat? : List Char → Option Nat
  | [] => none
  | cs => cs.foldl (fun acc c =>
      match acc with
      | none => none
      | some n => if c.isDigit then some (n * 10 + (c.toNat - 48)) else none) (some 0)

/-- The value on a "depth " option line. -/
def depthValue? (l : String) : Option Nat := digitsToNat? (l.data.drop 6)

/-- The proof-depth budget recorded in a rendered artifact: the value
of the first "depth " line of its `[options]` section. -/
def configDepth (ls : List String) : Option Nat :=
  (ls.find? isDepthLine).bind depthValue?

/-- Environment of one generator run: whether writing (`open(file,
"w")` plus the write itself) succeeds for a given path. Rendering the
template string itself cannot fail. -/
structure GenEnv where
  writeOk : String → Bool

/-- The environment in which every write succeeds. -/
def allOk : GenEnv := { writeOk := fun _ => true }

/-- The artifact path chosen by all three creators:
`output_dir / "verify_<name>.sby"`. -/
def cfgFileName (output_dir name : String) : String :=
  output_dir ++ "/verify_" ++ name ++ ".sby"

/-- Result of one family's generation loop in `main` of
generate_instruction_tests.py: the file system afterwards, the
collected list of successfully written config paths, and the printed
per-entry progress lines. -/
structure GenOut where
  fs : FileState
  configs : List String
  log : List String

/-- One family's generation loop of `main` (e.g. lines 413-419): for
each catalog entry, try the creator; on success append the config path
and print a [PASS] line; on an exception print an [ERROR] line for that
entry and continue with the remaining entries. `w` is the padding width
of the printed name (8 for instructions and integration, 12 for system
checks); `render` is the family's template. -/
def generateLoop (env : GenEnv) (output_dir : String) (w : Nat)
    (render : String → String) : List (String × String) → FileState → GenOut
  | [], fs => { fs, configs := [], log := [] }
  | (name, desc) :: rest, fs =>
      let file := cfgFileName output_dir name
      if env.writeOk file then
        let out := generateLoop env output_dir w render rest (fsWrite fs file (render name))
        { fs := out.fs, configs := file :: out.configs,
          log := ("  [PASS] " ++ padR name.toUpper w ++ " - " ++ desc) :: out.log }
      else
        let out := generateLoop env output_dir w render rest fs
        { fs := out.fs, configs := out.configs,
          log := ("  [ERROR] " ++ padR name.toUpper w ++ " - Error: write failed") :: out.log }

/-- `main` of generate_instruction_tests.py (lines 392-450): run the
three family loops in order on the same file system and return True —
unconditionally, regardless of per-entry failures. -/
def generate_tests_main (env : GenEnv) (fs : FileState) : FileState × Bool :=
  let outI := generateLoop env "instructions" 8 create_instruction_config_content
    RV32I_INSTRUCTIONS fs
  let outS := generateLoop env "system_checks" 12 create_system_config_content
    SYSTEM_CHECKS outI.fs
  let outC := generateLoop env "integration" 8 create_integration_config_content
    INTEGRATION_CHECKS outS.fs
  (outC.fs, true)

/-- The last catalog entry whose artifact path is `k` (later writes to
the same path overwrite earlier ones). -/
def lastWrite (output_dir : String) : List (String × String) → String → Option String
  | [], _ => none
  | e :: rest, k =>
      match lastWrite output_dir rest k with
      | some n => some n
      | none => if cfgFileName output_dir e.1 = k then some e.1 else none

theorem run_single_test_status_cases (env : SuiteEnv) (f c : String) :
    (run_single_test env f c).status = "PASS" ∨ (run_single_test env f c).status = "FAIL" ∨
    (run_single_test env f c).status = "TIMEOUT" ∨ (run_single_test env f c).status = "ERROR" := by
  unfold run_single_test
  cases env.run f with
  | completed rc o e d => by_cases h : rc = 0 <;> simp [h]
  | timedOut d => simp
  | raised m d => simp

theorem countStatus_cons (s : String) (r : TestResult) (t : List TestResult) :
    countStatus s (r :: t) = (if r.status == s then 1 else 0) + countStatus s t := by
  simp only [countStatus, List.filter_cons]
  by_cases h : r.status == s <;> (simp [h]; try omega)

theorem countStatus_partition (t : List TestResult)
    (h : ∀ r ∈ t, r.status = "PASS" ∨ r.status = "FAIL" ∨
      r.status = "TIMEOUT" ∨ r.status = "ERROR") :
    countStatus "PASS" t + countStatus "FAIL" t + countStatus "TIMEOUT" t
      + countStatus "ERROR" t = t.length := by
  induction t with
  | nil => simp [countStatus]
  | cons r t ih =>
    have hr := h r (by simp)
    have ht := ih (fun x hx => h x (by simp [hx]))
    rw [countStatus_cons, countStatus_cons, countStatus_cons, countStatus_cons]
    rcases hr with h1 | h1 | h1 | h1 <;> simp [h1] <;> omega

/-- C9: `run_single_test` is total at its interface: for every
environment, artifact path and category it returns a `TestResult`
whose status is one of exactly "PASS", "FAIL", "TIMEOUT", "ERROR"; the
`except Exception` arm absorbs every failure of launching or monitoring
the external process into the ERROR branch, so no exception reaches the
caller (totality of the Lean function mirrors this). -/
theorem claim_c9_run_single_test_total (env : SuiteEnv) (f c : String) :
    (run_single_test env f c).status ∈ (["PASS", "FAIL", "TIMEOUT", "ERROR"] : List String) := by
  rcases run_single_test_status_cases env f c with h | h | h | h <;> simp [h]

/-- C2: outcome classification of one job. Exit code 0 yields PASS with
no diagnostic; a non-zero exit code yields FAIL (never TIMEOUT) with
the captured stderr — or, when stderr is empty, stdout — attached;
exceeding the timeout yields TIMEOUT (never FAIL) with a fixed message
(`subprocess.run` terminates the child before raising TimeoutExpired);
any raised exception yields ERROR with the exception text attached. -/
theorem claim_c2_outcome_classification (env : SuiteEnv) (f c : String) :
    match env.run f with
    | .completed rc o e d =>
        (run_single_test env f c).status = (if rc = 0 then "PASS" else "FAIL") ∧
        (run_single_test env f c).error_message
          = (if rc = 0 then none else some (if e = "" then o else e)) ∧
        (run_single_test env f c).duration = d
    | .timedOut d =>
        (run_single_test env f c).status = "TIMEOUT" ∧
        (run_single_test env f c).error_message
          = some ("Test timed out after " ++ toString env.timeout ++ " seconds") ∧
        (run_single_test env f c).duration = d
    | .raised m d =>
        (run_single_test env f c).status = "ERROR" ∧
        (run_single_test env f c).error_message = some m ∧
        (run_single_test env f c).duration = d := by
  cases h : env.run f <;> simp [run_single_test, h]

/-- C3: every submitted job yields exactly one terminal result, and the
four per-status counts of the report partition them: their sum equals
the number of jobs submitted — no job is silently dropped. -/
theorem claim_c3_no_job_dropped (env : SuiteEnv) (jobs : List (String × String)) :
    (run_tests_parallel env jobs).length = jobs.length ∧
    countStatus "PASS" (run_tests_parallel env jobs)
      + countStatus "FAIL" (run_tests_parallel env jobs)
      + countStatus "TIMEOUT" (run_tests_parallel env jobs)
      + countStatus "ERROR" (run_tests_parallel env jobs) = jobs.length := by
  constructor
  · simp [run_tests_parallel]
  · rw [countStatus_partition]
    · simp [run_tests_parallel]
    · intro r hr
      simp only [run_tests_parallel, List.mem_map] at hr
      obtain ⟨fc, _, rfl⟩ := hr
      exact run_single_test_status_cases env fc.1 fc.2

theorem run_verification_suite_eq_true_iff (env : SuiteEnv) (fd : String)
    (cats : Option (List String)) :
    run_verification_suite env fd cats = true ↔
      (discoveredJobs env fd cats ≠ [] ∧
       ∀ r ∈ run_tests_parallel env (discoveredJobs env fd cats), r.status = "PASS") := by
  unfold run_verification_suite
  by_cases hj : (discoveredJobs env fd cats).isEmpty
  · rw [List.isEmpty_iff] at hj
    simp [hj]
  · rw [List.isEmpty_iff] at hj
    simp only [hj, if_neg, List.isEmpty_iff, ne_eq, not_false_eq_true, true_and]
    rw [beq_iff_eq, countStatus]
    constructor
    · intro h r hr
      have hsub := List.filter_sublist
        (l := run_tests_parallel env (discoveredJobs env fd cats))
        (p := fun r => r.status == "PASS")
      have heq := hsub.eq_of_length h
      have := (List.filter_eq_self.mp heq) r hr
      simpa using this
    · intro h
      rw [List.filter_eq_self.mpr (fun a ha => by simpa using h a ha)]

/-- C1: the verification run exits with code 0 exactly when at least one
test artifact was discovered and every executed job's status is PASS;
in every other case — including zero artifacts discovered across the
selected categories, which short-circuits to a failure before an empty
"all passed" report could arise — the exit code is 1. -/
theorem claim_c1_exit_code_iff_all_passed (env : SuiteEnv) (fd : String)
    (cats : Option (List String)) :
    mainExitCode env fd cats = 0 ↔
      (discoveredJobs env fd cats ≠ [] ∧
       ∀ r ∈ run_tests_parallel env (discoveredJobs env fd cats), r.status = "PASS") := by
  rw [← run_verification_suite_eq_true_iff]
  unfold mainExitCode
  rcases Bool.eq_false_or_eq_true (run_verification_suite env fd cats) with hb | hb <;>
    simp [hb]

/-- C10: a missing category directory never aborts discovery:
`find_test_files` returns the empty list for a non-existent directory,
and when every selected directory is missing the invocation fails only
through the zero-jobs-discovered branch (`run_verification_suite`
returns false rather than raising). -/
theorem claim_c10_missing_dir_yields_empty (env : SuiteEnv) (d fd : String)
    (cats : Option (List String)) :
    (env.dirExists d = false → find_test_files env d = []) ∧
    ((∀ x, env.dirExists x = false) → run_verification_suite env fd cats = false) := by
  constructor
  · intro h
    simp [find_test_files, h]
  · intro h
    have hempty : discoveredJobs env fd cats = [] := by
      simp [discoveredJobs, find_test_files, h]
    simp [run_verification_suite, hempty]

/-- An environment in which no directory exists. -/
def envNoDirs : SuiteEnv :=
  { timeout := 300, dirExists := fun _ => false, globSby := fun _ => [],
    logDirExists := fun _ => false, logGlob := fun _ => [],
    run := fun _ => .raised "sby not found" 0 }

/-- Witness for C10 at a concrete environment with no directories. -/
theorem claim_c10_witness :
    (envNoDirs.dirExists "formal/instructions" = false ∧
      (∀ x, envNoDirs.dirExists x = false)) ∧
    (find_test_files envNoDirs "formal/instructions" = [] ∧
      run_verification_suite envNoDirs "formal" none = false) :=
  ⟨⟨rfl, fun _ => rfl⟩,
   ⟨(claim_c10_missing_dir_yields_empty envNoDirs "formal/instructions" "formal" none).1 rfl,
    (claim_c10_missing_dir_yields_empty envNoDirs "formal/instructions" "formal" none).2
      (fun _ => rfl)⟩⟩

/-- C8: the proof-depth budget recorded in the rendered artifacts is
strictly monotone by category: every instruction artifact configures
depth 20, every system-property artifact depth 30, every integration
artifact depth 50, and 20 < 30 < 50. -/
theorem claim_c8_depth_monotone_by_category (i s c : String) :
    configDepth (instructionConfigLines i) = some 20 ∧
    configDepth (systemConfigLines s) = some 30 ∧
    configDepth (integrationConfigLines c) = some 50 ∧
    (20 : Nat) < 30 ∧ (30 : Nat) < 50 :=
  ⟨rfl, rfl, rfl, by omega, by omega⟩

/-- A generator environment in which every write fails. -/
def genEnvFailAll : GenEnv := { writeOk := fun _ => false }

/-- A one-entry catalog. -/
def oneEntryCatalog : List (String × String) := [("add", "R-type arithmetic")]

/-- C4 counterexample: with a one-entry catalog whose artifact write
fails, the generation loop returns a config list of length 0, not a
per-entry success/failure list covering every catalog entry (the
failure is only printed; the collected list holds successes only). -/
theorem claim_c4_counterexample :
    (generateLoop genEnvFailAll "instructions" 8 create_instruction_config_content
        oneEntryCatalog emptyFS).configs.length ≠ oneEntryCatalog.length := by
  decide

/-- C4 as amended: a write failure while generating one entry's
artifact is caught per entry (the Python `except` around the creator
call) and reported as one [ERROR] progress line scoped to that entry;
it does not abort the remaining entries — the loop emits exactly one
progress line per catalog entry and the returned list collects exactly
the successfully generated entries' config paths, in catalog order;
the top-level generation `main` returns True unconditionally instead
of a per-entry success/failure list. -/
theorem claim_c4_amended_isolate_and_continue (env : GenEnv) (dir : String) (w : Nat)
    (render : String → String) (cat : List (String × String)) (fs : FileState) :
    (generateLoop env dir w render cat fs).log.length = cat.length ∧
    (generateLoop env dir w render cat fs).configs
      = (cat.filter (fun e => env.writeOk (cfgFileName dir e.1))).map
          (fun e => cfgFileName dir e.1) ∧
    (generate_tests_main env fs).2 = true := by
  refine ⟨?_, ?_, rfl⟩
  · induction cat generalizing fs with
    | nil => simp [generateLoop]
    | cons e rest ih =>
      obtain ⟨name, desc⟩ := e
      by_cases h : env.writeOk (cfgFileName dir name) <;>
        simp [generateLoop, h, ih]
  · induction cat generalizing fs with
    | nil => simp [generateLoop]
    | cons e rest ih =>
      obtain ⟨name, desc⟩ := e
      by_cases h : env.writeOk (cfgFileName dir name) <;>
        simp [generateLoop, h, List.filter_cons, ih]

theorem allOk_writeOk (k : String) : allOk.writeOk k = true := rfl

theorem generateLoop_fs_apply (dir : String) (w : Nat) (render : String → String)
    (cat : List (String × String)) : ∀ (fs : FileState) (k : String),
    (generateLoop allOk dir w render cat fs).fs k
      = match lastWrite dir cat k with
        | some n => some (render n)
        | none => fs k := by
  induction cat with
  | nil => intro fs k; rfl
  | cons e rest ih =>
    intro fs k
    obtain ⟨name, desc⟩ := e
    show (generateLoop allOk dir w render ((name, desc) :: rest) fs).fs k = _
    simp only [generateLoop, allOk_writeOk, if_true]
    rw [ih]
    cases h : lastWrite dir rest k with
    | some n => simp [lastWrite, h]
    | none =>
      simp only [lastWrite, h, fsWrite]
      by_cases hk : k = cfgFileName dir name
      · simp [hk]
      · simp [hk, Ne.symm hk]

theorem lastWrite_isSome_of_mem (dir : String) (cat : List (String × String))
    (d : String) :
    (∃ e ∈ cat, cfgFileName dir e.1 = d) → ∃ n, lastWrite dir cat d = some n := by
  induction cat with
  | nil => rintro ⟨e, he, -⟩; simp at he
  | cons x rest ih =>
    rintro ⟨e, he, hd⟩
    rcases List.mem_cons.mp he with rfl | hmem
    · cases h : lastWrite dir rest d with
      | some n => exact ⟨n, by simp [lastWrite, h]⟩
      | none => exact ⟨e.1, by simp [lastWrite, h, hd]⟩
    · obtain ⟨n, hn⟩ := ih ⟨e, hmem, hd⟩
      exact ⟨n, by simp [lastWrite, hn]⟩

/-- C5: generation is idempotent. With every write succeeding, running
the generation loop a second time on an unchanged catalog leaves every
artifact byte-identical (the rendered content is a deterministic
function of the entry alone), and deleting one generated artifact and
regenerating restores exactly that artifact while leaving every
sibling artifact byte-unchanged: in both cases the resulting file
system equals the one after the first generation. -/
theorem claim_c5_generation_idempotent (dir : String) (w : Nat)
    (render : String → String) (cat : List (String × String)) (fs : FileState)
    (d : String) (hd : ∃ e ∈ cat, cfgFileName dir e.1 = d) :
    (generateLoop allOk dir w render cat
        ((generateLoop allOk dir w render cat fs).fs)).fs
      = (generateLoop allOk dir w render cat fs).fs ∧
    (generateLoop allOk dir w render cat
        (fsDelete ((generateLoop allOk dir w render cat fs).fs) d)).fs
      = (generateLoop allOk dir w render cat fs).fs := by
  constructor
  · funext k
    simp only [generateLoop_fs_apply]
    cases h : lastWrite dir cat k <;> simp [h]
  · funext k
    simp only [generateLoop_fs_apply]
    cases h : lastWrite dir cat k with
    | some n => simp [h]
    | none =>
      by_cases hk : k = d
      · subst hk
        obtain ⟨n, hn⟩ := lastWrite_isSome_of_mem dir cat k hd
        rw [hn] at h
        cases h
      · simp [h, fsDelete, hk, generateLoop_fs_apply]

/-- Witness for C5: the real instruction catalog, generated into the
instructions directory on an empty file system, with the add-artifact
deleted and regenerated. -/
theorem claim_c5_witness :
    (∃ e ∈ RV32I_INSTRUCTIONS,
        cfgFileName "instructions" e.1 = "instructions/verify_add.sby") ∧
    ((generateLoop allOk "instructions" 8 create_instruction_config_content
          RV32I_INSTRUCTIONS
          ((generateLoop allOk "instructions" 8 create_instruction_config_content
              RV32I_INSTRUCTIONS emptyFS).fs)).fs
        = (generateLoop allOk "instructions" 8 create_instruction_config_content
            RV32I_INSTRUCTIONS emptyFS).fs ∧
      (generateLoop allOk "instructions" 8 create_instruction_config_content
          RV32I_INSTRUCTIONS
          (fsDelete
            ((generateLoop allOk "instructions" 8 create_instruction_config_content
                RV32I_INSTRUCTIONS emptyFS).fs)
            "instructions/verify_add.sby")).fs
        = (generateLoop allOk "instructions" 8 create_instruction_config_content
            RV32I_INSTRUCTIONS emptyFS).fs) :=
  ⟨⟨("add", "R-type arithmetic"), by decide, rfl⟩,
   claim_c5_generation_idempotent "instructions" 8 create_instruction_config_content
     RV32I_INSTRUCTIONS emptyFS "instructions/verify_add.sby"
     ⟨("add", "R-type arithmetic"), by decide, rfl⟩⟩

/-- A failing instruction job result. -/
def rFailB : TestResult :=
  { test_name := "verify_sub", category := "instructions", status := "FAIL",
    duration := 2, log_file := none, error_message := some "assert failed" }

/-- A timed-out instruction job result. -/
def rTimeoutC : TestResult :=
  { test_name := "verify_add", category := "instructions", status := "TIMEOUT",
    duration := 5, log_file := none,
    error_message := some "Test timed out after 1 seconds" }

set_option maxRecDepth 100000 in
/-- C6 counterexample: the two orders of the same two-element JobResult
list are permutations of one another, yet `generate_summary_report`
produces different texts for them — the "Failed Tests:" section
enumerates non-passing jobs in list order, so the reduction to the
textual summary is not order-independent. -/
theorem claim_c6_counterexample :
    ([rFailB, rTimeoutC] : List TestResult).Perm [rTimeoutC, rFailB] ∧
    generate_summary_report [rFailB, rTimeoutC] 5
      ≠ generate_summary_report [rTimeoutC, rFailB] 5 :=
  ⟨List.Perm.swap _ _ _, by decide⟩

/-- C6 as amended: the derived numeric statistics of the aggregator —
the per-status counts, the per-category totals and per-category
per-status counts, the cumulative duration and the total count — are
order-independent: equal for any two permutations of the same
JobResult list. The rendered textual summary, by contrast, is not
order-independent in general (the counterexample above), because the
failed-job enumeration and the category section follow encounter order
and the fastest/slowest designations break duration ties by position. -/
theorem claim_c6_amended_statistics_order_independent
    (l1 l2 : List TestResult) (h : l1.Perm l2) :
    (∀ s, countStatus s l1 = countStatus s l2) ∧
    (∀ c, countCat c l1 = countCat c l2) ∧
    (∀ c s, countCatStatus c s l1 = countCatStatus c s l2) ∧
    totalDuration l1 = totalDuration l2 ∧
    l1.length = l2.length := by
  refine ⟨fun s => ?_, fun c => ?_, fun c s => ?_, ?_, h.length_eq⟩
  · exact (h.filter _).length_eq
  · exact (h.filter _).length_eq
  · exact (h.filter _).length_eq
  · exact (h.map _).sum_eq

/-- Witness for C6 as amended, at the concrete two-element swap. -/
theorem claim_c6_amended_witness :
    ([rFailB, rTimeoutC] : List TestResult).Perm [rTimeoutC, rFailB] ∧
    countStatus "FAIL" [rFailB, rTimeoutC] = countStatus "FAIL" [rTimeoutC, rFailB] ∧
    totalDuration [rFailB, rTimeoutC] = totalDuration [rTimeoutC, rFailB] :=
  ⟨List.Perm.swap _ _ _,
   (claim_c6_amended_statistics_order_independent _ _ (List.Perm.swap _ _ _)).1 "FAIL",
   (claim_c6_amended_statistics_order_independent _ _ (List.Perm.swap _ _ _)).2.2.2.1⟩

/-- C7: for every non-passing JobResult carrying a diagnostic (a
non-empty message: the line-196 truthiness guard treats None and "" as
no diagnostic), the human-readable summary contains its "    Error: "
line with the diagnostic truncated to the fixed length (100 characters
plus "..."), while the persisted structured report contains an entry
for the same job that retains the identical diagnostic untruncated,
along with the other JobResult fields. -/
theorem claim_c7_truncated_summary_full_report (results : List TestResult)
    (wall : Nat) (ts : String) (r : TestResult) (m : String)
    (hmem : r ∈ results) (hst : r.status ≠ "PASS")
    (herr : r.error_message = some m) (hm : m ≠ "") :
    ("    Error: " ++ truncateErr m) ∈ summaryLines results wall ∧
    ∃ e ∈ (save_detailed_report results wall ts).results,
      e.test_name = r.test_name ∧ e.category = r.category ∧
      e.status = r.status ∧ e.duration = r.duration ∧
      e.error_message = some m := by
  constructor
  · have hne : results ≠ [] := List.ne_nil_of_mem hmem
    have hfmem : r ∈ results.filter (fun r => r.status != "PASS") := by
      rw [List.mem_filter]
      exact ⟨hmem, by simp [hst]⟩
    have hline : ("    Error: " ++ truncateErr m) ∈ failedLines results := by
      have hfne : results.filter (fun r => r.status != "PASS") ≠ [] :=
        List.ne_nil_of_mem hfmem
      unfold failedLines
      rw [if_neg (by simpa [List.isEmpty_iff] using hfne)]
      refine List.mem_cons_of_mem _ (List.mem_append_left _ ?_)
      refine List.mem_flatMap.mpr ⟨r, hfmem, ?_⟩
      simp [failedBlock, herr, hm]
    unfold summaryLines
    rw [if_neg (by simp [hne])]
    simp only [List.mem_append]
    tauto
  · exact ⟨⟨r.test_name, r.category, r.status, r.duration, r.log_file,
      r.error_message⟩, List.mem_map_of_mem _ hmem, rfl, rfl, rfl, rfl, herr⟩

/-- Witness for C7: a one-element result list whose job failed with a
short diagnostic. -/
theorem claim_c7_witness :
    (rFailB ∈ [rFailB] ∧ rFailB.status ≠ "PASS" ∧
      rFailB.error_message = some "assert failed" ∧ "assert failed" ≠ "") ∧
    (("    Error: " ++ truncateErr "assert failed") ∈ summaryLines [rFailB] 2 ∧
     ∃ e ∈ (save_detailed_report [rFailB] 2 "2026-10-12 00:00:00").results,
       e.test_name = rFailB.test_name ∧ e.category = rFailB.category ∧
       e.status = rFailB.status ∧ e.duration = rFailB.duration ∧
       e.error_message = some "assert failed") :=
  ⟨⟨List.mem_singleton.mpr rfl, by decide, rfl, by decide⟩,
   claim_c7_truncated_summary_full_report [rFailB] 2 "2026-10-12 00:00:00" rFailB
     "assert failed" (List.mem_singleton.mpr rfl) (by decide) rfl (by decide)⟩
